import Mathlib

/-!
Verification of the SIM-info tracker (src/sim-info.c) against its
natural-language specification.

The C module is a single-threaded, callback-driven state machine.  We embed it
shallowly: each static C function becomes a Lean function on an explicit state
record.  C strings (`char *`) become `Option String` (`none` models NULL, and
`g_strcmp0` therefore becomes equality on `Option String`); the fixed
`default_spn` buffer becomes a plain `String`; the `queued_signals` bitset
becomes three booleans; the two GKeyFile stores become association lists kept
inside the state, together with a log of the writes actually committed to
stable storage (each `storage_close(..., TRUE)` appends one record).
-/

/-- The three change notifications the tracker can emit
(`SIGNAL_ICCID_CHANGED`, `SIGNAL_IMSI_CHANGED`, `SIGNAL_SPN_CHANGED`). -/
inductive SimSignal
  | iccid
  | imsi
  | spn
deriving DecidableEq, Repr

/-- States of `ofono_sim_get_state`; the tracker only ever compares against
`ready` (`OFONO_SIM_STATE_READY`). -/
inductive SimState
  | notPresent
  | inserted
  | lockedOut
  | ready
  | resetting
deriving DecidableEq, Repr

/-- Network registration statuses (`enum ofono_netreg_status`); `invalid`
models the value reported for a detached (NULL) netreg. -/
inductive NetregStatus
  | notRegistered
  | registered
  | searching
  | denied
  | unknown
  | roaming
  | invalid
deriving DecidableEq, Repr

/-- A committed write to stable storage: either the per-IMSI SPN cache entry
(store "cache", group "sim", field "spn") or the global ICCID to IMSI map
entry (store "iccidmap", group "imsi", field = the ICCID). -/
inductive WriteRec
  | spnCache (imsi spn : String)
  | iccidMap (iccid imsi : String)
deriving DecidableEq, Repr

/-- Readings offered by an attached netreg: registration status, network
MCC/MNC and operator display name (`ofono_netreg_get_status` / `_get_mcc` /
`_get_mnc` / `_get_name`). -/
structure NetregData where
  status : NetregStatus
  mcc : Option String
  mnc : Option String
  name : Option String
deriving DecidableEq, Repr

/-- Readings offered by the watch's SIM object: its state and the SIM
MCC/MNC (`ofono_sim_get_state` / `_get_mcc` / `_get_mnc`). -/
structure SimData where
  simState : SimState
  mcc : Option String
  mnc : Option String
deriving DecidableEq, Repr

/-- A snapshot of the values the external Watch source exposes while one
upstream event is being handled (`watch->iccid`, `watch->imsi`, `watch->spn`,
`watch->sim`, `watch->netreg`). -/
structure WatchEnv where
  iccid : Option String
  imsi : Option String
  spn : Option String
  sim : Option SimData
  netreg : Option NetregData
deriving DecidableEq, Repr

/-- The tracker state (`SimInfoPriv`) together with the two persistent stores
it reads and writes and the log of committed store writes.  The C
`queued_signals` int bitset is represented by one boolean per signal kind. -/
structure SimInfoState where
  netreg : Option NetregData
  iccid : Option String
  imsi : Option String
  cached_spn : Option String
  sim_spn : Option String
  public_spn : Option String
  default_spn : String
  update_imsi_cache : Bool
  update_iccid_map : Bool
  queued_iccid : Bool
  queued_imsi : Bool
  queued_spn : Bool
  iccidMap : List (String × String)
  spnCache : List (String × String)
  writes : List WriteRec
deriving DecidableEq, Repr

/-- `g_key_file_get_string`: look a key up in an association-list store;
`none` models a missing entry. -/
def kvGet (kv : List (String × String)) (k : String) : Option String :=
  match kv with
  | [] => none
  | p :: rest => if p.1 = k then some p.2 else kvGet rest k

/-- `g_key_file_set_string`: update or insert a key in an association-list
store. -/
def kvSet (kv : List (String × String)) (k v : String) : List (String × String) :=
  match kv with
  | [] => [(k, v)]
  | p :: rest => if p.1 = k then (k, v) :: rest else p :: kvSet rest k v

/-- The C idiom `s && s[0]`: the string pointer is non-NULL and the string is
non-empty. -/
def cstrPresent : Option String → Prop
  | some v => v ≠ ""
  | none => False

instance : ∀ o : Option String, Decidable (cstrPresent o)
  | some v => inferInstanceAs (Decidable (v ≠ ""))
  | none => inferInstanceAs (Decidable False)

/-- `ofono_netreg_get_status`; a detached (NULL) netreg reports no valid
registration. -/
def ofono_netreg_get_status (nr : Option NetregData) : NetregStatus :=
  match nr with
  | some d => d.status
  | none => NetregStatus.invalid

/-- `ofono_netreg_get_mcc`; NULL netreg yields NULL. -/
def ofono_netreg_get_mcc (nr : Option NetregData) : Option String :=
  match nr with
  | some d => d.mcc
  | none => none

/-- `ofono_netreg_get_mnc`; NULL netreg yields NULL. -/
def ofono_netreg_get_mnc (nr : Option NetregData) : Option String :=
  match nr with
  | some d => d.mnc
  | none => none

/-- `ofono_netreg_get_name`; NULL netreg yields NULL. -/
def ofono_netreg_get_name (nr : Option NetregData) : Option String :=
  match nr with
  | some d => d.name
  | none => none

/-- `sim_info_signal_queue`: set the bit of one signal kind, never emitting
synchronously. -/
def sim_info_signal_queue (id : SimSignal) (s : SimInfoState) : SimInfoState :=
  match id with
  | SimSignal.iccid => { s with queued_iccid := true }
  | SimSignal.imsi => { s with queued_imsi := true }
  | SimSignal.spn => { s with queued_spn := true }

/-- `sim_info_signal_emit`: clear the bit of the signal kind and emit it (the
emission is returned as a one-element list). -/
def sim_info_signal_emit (id : SimSignal) (s : SimInfoState) :
    SimInfoState × List SimSignal :=
  match id with
  | SimSignal.iccid => ({ s with queued_iccid := false }, [SimSignal.iccid])
  | SimSignal.imsi => ({ s with queued_imsi := false }, [SimSignal.imsi])
  | SimSignal.spn => ({ s with queued_spn := false }, [SimSignal.spn])

/-- `sim_info_emit_queued_signals`: walk the signal kinds in the fixed order
ICCID, IMSI, SPN and emit each pending one, clearing its bit as part of the
emission.  Returns the final state and the emissions in order. -/
def sim_info_emit_queued_signals (s : SimInfoState) :
    SimInfoState × List SimSignal :=
  let r1 := if s.queued_iccid then sim_info_signal_emit SimSignal.iccid s
            else (s, [])
  let r2 := if r1.1.queued_imsi then sim_info_signal_emit SimSignal.imsi r1.1
            else (r1.1, [])
  let r3 := if r2.1.queued_spn then sim_info_signal_emit SimSignal.spn r2.1
            else (r2.1, [])
  (r3.1, r1.2 ++ r2.2 ++ r3.2)

/-- `sim_info_update_imsi_cache`: flush of the per-IMSI SPN cache.  Runs only
when the dirty flag is set and both the IMSI (key) and `cached_spn` (value)
are non-NULL and non-empty; reads the stored SPN back and writes only when it
differs from `cached_spn`; clears the dirty flag either way. -/
def sim_info_update_imsi_cache (s : SimInfoState) : SimInfoState :=
  if s.update_imsi_cache ∧ cstrPresent s.imsi ∧ cstrPresent s.cached_spn then
    let im := s.imsi.getD ""
    let cs := s.cached_spn.getD ""
    if kvGet s.spnCache im ≠ some cs then
      { s with spnCache := kvSet s.spnCache im cs,
               writes := s.writes ++ [WriteRec.spnCache im cs],
               update_imsi_cache := false }
    else
      { s with update_imsi_cache := false }
  else s

/-- `sim_info_update_iccid_map`: flush of the global ICCID to IMSI map.  Runs
only when the dirty flag is set and both the ICCID (key) and IMSI (value) are
non-NULL and non-empty; reads the stored IMSI back and writes only when it
differs; clears the dirty flag either way. -/
def sim_info_update_iccid_map (s : SimInfoState) : SimInfoState :=
  if s.update_iccid_map ∧ cstrPresent s.iccid ∧ cstrPresent s.imsi then
    let ic := s.iccid.getD ""
    let im := s.imsi.getD ""
    if kvGet s.iccidMap ic ≠ some im then
      { s with iccidMap := kvSet s.iccidMap ic im,
               writes := s.writes ++ [WriteRec.iccidMap ic im],
               update_iccid_map := false }
    else
      { s with update_iccid_map := false }
  else s

/-- `sim_info_update_public_spn`: recompute the public SPN from the non-NULL
precedence chain `sim_spn`, else `cached_spn`, else the `default_spn` buffer;
when the result differs from the current `public_spn` store it (an empty
string is normalized to NULL) and queue SPN-changed. -/
def sim_info_update_public_spn (s : SimInfoState) : SimInfoState :=
  let spn : String :=
    match s.sim_spn with
    | some v => v
    | none =>
      match s.cached_spn with
      | some v => v
      | none => s.default_spn
  if s.public_spn ≠ some spn then
    if spn = "" then
      sim_info_signal_queue SimSignal.spn { s with public_spn := none }
    else
      sim_info_signal_queue SimSignal.spn { s with public_spn := some spn }
  else s

/-- `sim_info_set_cached_spn`: if the (non-NULL) value differs from
`cached_spn`, adopt it, mark the per-IMSI cache dirty, attempt the cache
flush and recompute the public SPN. -/
def sim_info_set_cached_spn (spn : String) (s : SimInfoState) : SimInfoState :=
  if s.cached_spn ≠ some spn then
    let s1 := { s with cached_spn := some spn, update_imsi_cache := true }
    sim_info_update_public_spn (sim_info_update_imsi_cache s1)
  else s

/-- `sim_info_set_spn`: if the (non-NULL) value differs from `sim_spn`, adopt
it, mark the per-IMSI cache dirty, cascade into `sim_info_set_cached_spn`,
attempt the cache flush and recompute the public SPN. -/
def sim_info_set_spn (spn : String) (s : SimInfoState) : SimInfoState :=
  if s.sim_spn ≠ some spn then
    let s1 := { s with sim_spn := some spn, update_imsi_cache := true }
    let s2 := sim_info_set_cached_spn spn s1
    sim_info_update_public_spn (sim_info_update_imsi_cache s2)
  else s

/-- `sim_info_update_spn`: the SPN watch callback body; only a non-NULL,
non-empty watch SPN is propagated. -/
def sim_info_update_spn (env : WatchEnv) (s : SimInfoState) : SimInfoState :=
  if cstrPresent env.spn then sim_info_set_spn (env.spn.getD "") s else s

/-- The value `sim_info_update_default_spn` formats into its buffer: MCC
concatenated with MNC, truncated by `snprintf` to the 7 characters that fit
in the 8-byte buffer, when the SIM is ready and both are known; empty
otherwise. -/
def sim_info_default_spn_value (sim : Option SimData) : String :=
  match sim with
  | some sd =>
    if sd.simState = SimState.ready then
      match sd.mcc, sd.mnc with
      | some mcc, some mnc => (mcc ++ mnc).take 7
      | _, _ => ""
    else ""
  | none => ""

/-- `sim_info_update_default_spn`: rewrite the `default_spn` buffer and
recompute the public SPN only when the formatted value actually changed. -/
def sim_info_update_default_spn (sim : Option SimData) (s : SimInfoState) :
    SimInfoState :=
  let buf := sim_info_default_spn_value sim
  if buf ≠ s.default_spn then
    sim_info_update_public_spn { s with default_spn := buf }
  else s

/-- `sim_info_update_imsi`: the IMSI watch callback body.  A NULL or empty
watch IMSI is ignored; a present, different one is adopted, the ICCID map is
marked dirty and both flushes are attempted, and IMSI-changed is queued.  The
default SPN is re-derived afterwards in every case. -/
def sim_info_update_imsi (env : WatchEnv) (s : SimInfoState) : SimInfoState :=
  let s1 :=
    if cstrPresent env.imsi ∧ s.imsi ≠ env.imsi then
      let im := env.imsi.getD ""
      let t := { s with imsi := some im, update_iccid_map := true }
      let t := sim_info_update_iccid_map t
      let t := sim_info_update_imsi_cache t
      sim_info_signal_queue SimSignal.imsi t
    else s
  sim_info_update_default_spn env.sim s1

/-- `sim_info_network_check`: the home-network inference rule.  When the SIM
is ready, registration is REGISTERED or ROAMING, SIM and network MCC/MNC are
all present and equal and an operator name is present, and no `sim_spn` is
set, adopt the operator name via `sim_info_set_cached_spn`. -/
def sim_info_network_check (sim : Option SimData) (s : SimInfoState) :
    SimInfoState :=
  match sim with
  | some sd =>
    if sd.simState = SimState.ready ∧
       (ofono_netreg_get_status s.netreg = NetregStatus.registered ∨
        ofono_netreg_get_status s.netreg = NetregStatus.roaming) then
      if cstrPresent sd.mcc ∧ cstrPresent sd.mnc ∧
         cstrPresent (ofono_netreg_get_mcc s.netreg) ∧
         cstrPresent (ofono_netreg_get_mnc s.netreg) ∧
         cstrPresent (ofono_netreg_get_name s.netreg) ∧
         sd.mcc = ofono_netreg_get_mcc s.netreg ∧
         sd.mnc = ofono_netreg_get_mnc s.netreg then
        if s.sim_spn = none then
          sim_info_set_cached_spn ((ofono_netreg_get_name s.netreg).getD "") s
        else s
      else s
    else s
  | none => s

/-- `sim_info_load_cache`: hydration from the persistent stores.  First, when
the ICCID is present, look the stored IMSI up in the ICCID map; a present,
non-empty, different value is adopted (the code marks `update_imsi_cache`
dirty when a tracked IMSI already existed), the map flush is attempted, the
default SPN re-derived and IMSI-changed queued.  Second, when an IMSI is
present, look the stored SPN up in the per-IMSI cache; a present, non-empty,
different value is adopted as `cached_spn` (marking the cache dirty when a
non-empty `cached_spn` already existed), the cache flush is attempted and the
public SPN recomputed. -/
def sim_info_load_cache_imsi (sim : Option SimData) (s0 : SimInfoState) :
    SimInfoState :=
  if cstrPresent s0.iccid then
    match kvGet s0.iccidMap (s0.iccid.getD "") with
    | some im =>
      if im ≠ "" ∧ s0.imsi ≠ some im then
        let t := if cstrPresent s0.imsi then
                   { s0 with update_imsi_cache := true }
                 else s0
        let t := { t with imsi := some im }
        let t := sim_info_update_iccid_map t
        let t := sim_info_update_default_spn sim t
        sim_info_signal_queue SimSignal.imsi t
      else s0
    | none => s0
  else s0

/-- Second block of `sim_info_load_cache`: the per-IMSI SPN cache lookup and
adoption described in the doc comment of `sim_info_load_cache`. -/
def sim_info_load_cache_spn (s : SimInfoState) : SimInfoState :=
  if cstrPresent s.imsi then
    match kvGet s.spnCache (s.imsi.getD "") with
    | some spn =>
      if spn ≠ "" ∧ s.cached_spn ≠ some spn then
        let t := if cstrPresent s.cached_spn then
                   { s with update_imsi_cache := true }
                 else s
        let t := { t with cached_spn := some spn }
        let t := sim_info_update_imsi_cache t
        sim_info_update_public_spn t
      else s
    | none => s
  else s

/-- `sim_info_load_cache` runs its two blocks in sequence: the ICCID map
lookup (`sim_info_load_cache_imsi`), then the SPN cache lookup
(`sim_info_load_cache_spn`). -/
def sim_info_load_cache (sim : Option SimData) (s0 : SimInfoState) :
    SimInfoState :=
  sim_info_load_cache_spn (sim_info_load_cache_imsi sim s0)

/-- `sim_info_set_iccid`: no-op when the value is unchanged; otherwise adopt
it and queue ICCID-changed.  A present new ICCID triggers cache hydration; an
absent one clears the IMSI (queueing IMSI-changed when one was set), clears
`sim_spn`, `cached_spn` and the `default_spn` buffer and recomputes the
public SPN. -/
def sim_info_set_iccid (sim : Option SimData) (iccid : Option String)
    (s : SimInfoState) : SimInfoState :=
  if s.iccid ≠ iccid then
    let s1 := sim_info_signal_queue SimSignal.iccid { s with iccid := iccid }
    match iccid with
    | some _ => sim_info_load_cache sim s1
    | none =>
      let s2 := if s1.imsi.isSome then
                  sim_info_signal_queue SimSignal.imsi { s1 with imsi := none }
                else s1
      let s3 := { s2 with sim_spn := none, cached_spn := none,
                          default_spn := "" }
      sim_info_update_public_spn s3
  else s

/-- `sim_info_set_netreg`: attach (storing the netreg readings and running the
home-network check) or detach. -/
def sim_info_set_netreg (sim : Option SimData) (netreg : Option NetregData)
    (s : SimInfoState) : SimInfoState :=
  if s.netreg ≠ netreg then
    match netreg with
    | some d => sim_info_network_check sim { s with netreg := some d }
    | none => if s.netreg.isSome then { s with netreg := none } else s
  else s

/-- The four upstream event kinds whose handlers the tracker registers:
the ICCID, IMSI and SPN watch callbacks, the netreg attach/detach callback,
and the status watch on an attached netreg. -/
inductive WatchEvent
  | iccidChanged
  | imsiChanged
  | spnChanged
  | netregChanged
  | netregStatus
deriving DecidableEq, Repr

/-- One top-level upstream event: the corresponding callback body runs, then
`sim_info_emit_queued_signals` flushes the queued notifications.  For the
netreg status watch (which exists only while a netreg is attached) the
environment carries the netreg readings current at the event, mirroring the
live re-reads the C code performs through the attached pointer. -/
def sim_info_handle_event (env : WatchEnv) (ev : WatchEvent)
    (s : SimInfoState) : SimInfoState × List SimSignal :=
  let s1 :=
    match ev with
    | WatchEvent.iccidChanged => sim_info_set_iccid env.sim env.iccid s
    | WatchEvent.imsiChanged => sim_info_update_imsi env s
    | WatchEvent.spnChanged => sim_info_update_spn env s
    | WatchEvent.netregChanged => sim_info_set_netreg env.sim env.netreg s
    | WatchEvent.netregStatus =>
      match s.netreg, env.netreg with
      | some _, some d => sim_info_network_check env.sim { s with netreg := some d }
      | _, _ => s
  sim_info_emit_queued_signals s1

/-- The state a freshly allocated tracker object starts from: every string
NULL, the `default_spn` buffer empty, no dirty flags, no queued signals, and
the given contents of the two persistent stores. -/
def sim_info_initial (iccidMap spnCache : List (String × String)) :
    SimInfoState :=
  { netreg := none, iccid := none, imsi := none, cached_spn := none,
    sim_spn := none, public_spn := none, default_spn := "",
    update_imsi_cache := false, update_iccid_map := false,
    queued_iccid := false, queued_imsi := false, queued_spn := false,
    iccidMap := iccidMap, spnCache := spnCache, writes := [] }

/-- `sim_info_new`: construction hydrates from the current Watch values
(ICCID, netreg, IMSI, SPN, then the home-network check) and finally clears
any queued signals before returning, without ever flushing them. -/
def sim_info_new (env : WatchEnv) (iccidMap spnCache : List (String × String)) :
    SimInfoState :=
  let s := sim_info_initial iccidMap spnCache
  let s := sim_info_set_iccid env.sim env.iccid s
  let s := sim_info_set_netreg env.sim env.netreg s
  let s := sim_info_update_imsi env s
  let s := sim_info_update_spn env s
  let s := sim_info_network_check env.sim s
  { s with queued_iccid := false, queued_imsi := false, queued_spn := false }

/-- The states the tracker can actually be in between top-level events: a
freshly constructed tracker, or the result of handling one more upstream
event (with arbitrary Watch readings) from a reachable state. -/
inductive Reachable : SimInfoState → Prop
  | new (env : WatchEnv) (iccidMap spnCache : List (String × String)) :
      Reachable (sim_info_new env iccidMap spnCache)
  | step (env : WatchEnv) (ev : WatchEvent) (s : SimInfoState) :
      Reachable s → Reachable (sim_info_handle_event env ev s).1

/-- The SPN precedence stated by the specification: `public_spn` is `sim_spn`
if non-empty, else `cached_spn` if non-empty, else `default_spn` if
non-empty, else absent. -/
def spec_public_spn (s : SimInfoState) : Option String :=
  if cstrPresent s.sim_spn then s.sim_spn
  else if cstrPresent s.cached_spn then s.cached_spn
  else if s.default_spn ≠ "" then some s.default_spn
  else none

/-- The condition under which the home-network inference of
`sim_info_network_check` adopts the operator name: SIM present and ready,
registration REGISTERED or ROAMING, SIM and network MCC/MNC all present and
equal, operator name present, and no `sim_spn` set. -/
def sim_info_home_network_fires (sim : Option SimData) (s : SimInfoState) :
    Prop :=
  match sim with
  | some sd =>
      sd.simState = SimState.ready ∧
      (ofono_netreg_get_status s.netreg = NetregStatus.registered ∨
       ofono_netreg_get_status s.netreg = NetregStatus.roaming) ∧
      cstrPresent sd.mcc ∧ cstrPresent sd.mnc ∧
      cstrPresent (ofono_netreg_get_mcc s.netreg) ∧
      cstrPresent (ofono_netreg_get_mnc s.netreg) ∧
      cstrPresent (ofono_netreg_get_name s.netreg) ∧
      sd.mcc = ofono_netreg_get_mcc s.netreg ∧
      sd.mnc = ofono_netreg_get_mnc s.netreg ∧
      s.sim_spn = none
  | none => False

instance (sim : Option SimData) (s : SimInfoState) :
    Decidable (sim_info_home_network_fires sim s) := by
  cases sim <;> simp only [sim_info_home_network_fires] <;> infer_instance

/-- A Watch environment reporting nothing at all. -/
def watch_env_nil : WatchEnv := ⟨none, none, none, none, none⟩

/-- Scenario B of the specification: the Watch reports ICCID "8901" and the
stores hold an IMSI and an SPN for it. -/
def watch_env_b : WatchEnv := ⟨some "8901", none, none, none, none⟩

def map_b : List (String × String) := [("8901", "001")]

def cache_b : List (String × String) := [("001", "MyCarrier")]

/-- The tracker state after construction against scenario B: hydrated IMSI
"001" and public SPN "MyCarrier". -/
def state_b : SimInfoState := sim_info_new watch_env_b map_b cache_b

/-- Construction environment leading to the C2 failing input: the tracker
starts with ICCID "I1" and IMSI "001", while the ICCID map has an entry for
the ICCID "I2" it will change to. -/
def env_c2_init : WatchEnv := ⟨some "I1", some "001", none, none, none⟩

def map_c2 : List (String × String) := [("I2", "002")]

/-- The C2 failing input: a reachable state with tracked ICCID "I1" and IMSI
"001" whose ICCID map stores IMSI "002" for ICCID "I2". -/
def state_c2 : SimInfoState := sim_info_new env_c2_init map_c2 []

/-- The C2 event: the Watch reports the new ICCID "I2". -/
def env_c2_swap : WatchEnv := ⟨some "I2", none, none, none, none⟩

/-- Construction environment for the C3 counterexample: ICCID "I1" is known,
no IMSI yet, and the per-IMSI SPN cache stores an SPN for the IMSI "002" the
Watch will report. -/
def env_c3_init : WatchEnv := ⟨some "I1", none, none, none, none⟩

def cache_c3 : List (String × String) := [("002", "StoredSPN")]

/-- The C3 counterexample state: reachable, no IMSI tracked yet, stored SPN
"StoredSPN" waiting under IMSI "002". -/
def state_c3 : SimInfoState := sim_info_new env_c3_init [] cache_c3

/-- The C3 event: the Watch freshly reports IMSI "002". -/
def env_c3_imsi : WatchEnv := ⟨some "I1", some "002", none, none, none⟩

/-- A state for the C3 hydration witness: ICCID "I9" present, map and SPN
cache both populated for it. -/
def state_c3w : SimInfoState :=
  { netreg := none, iccid := some "I9", imsi := none, cached_spn := none,
    sim_spn := none, public_spn := none, default_spn := "",
    update_imsi_cache := false, update_iccid_map := false,
    queued_iccid := false, queued_imsi := false, queued_spn := false,
    iccidMap := [("I9", "009")], spnCache := [("009", "NineSPN")],
    writes := [] }

/-- An IMSI-only event while no ICCID is present, used to reach the C7
counterexample state. -/
def env_c7_imsi : WatchEnv := ⟨none, some "001", none, none, none⟩

/-- The C7 counterexample state: reachable, ICCID absent while IMSI "001" is
tracked (the Watch reported the IMSI while no ICCID was known). -/
def state_c7 : SimInfoState :=
  (sim_info_handle_event env_c7_imsi WatchEvent.imsiChanged
    (sim_info_new watch_env_nil [] [])).1

/-- A state holding concrete values in every identity field, used by the
idempotence witness. -/
def state_w : SimInfoState :=
  { netreg := none, iccid := some "I", imsi := some "001",
    cached_spn := some "B", sim_spn := some "A", public_spn := some "A",
    default_spn := "", update_imsi_cache := false, update_iccid_map := false,
    queued_iccid := false, queued_imsi := false, queued_spn := false,
    iccidMap := [], spnCache := [], writes := [] }

/-- A state with the per-IMSI cache dirty flag set and a stale stored SPN,
used by the write-minimization witness. -/
def state_c4 : SimInfoState :=
  { netreg := none, iccid := some "I", imsi := some "001",
    cached_spn := some "NewSPN", sim_spn := none, public_spn := some "NewSPN",
    default_spn := "", update_imsi_cache := true, update_iccid_map := false,
    queued_iccid := false, queued_imsi := false, queued_spn := false,
    iccidMap := [], spnCache := [("001", "OldSPN")], writes := [] }

/-! ### Internal invariant: the option-string fields never hold an empty
string (the code only ever stores values guarded by a non-empty check), and
`public_spn` always agrees with the specified precedence. -/

/-- `sim_spn`, `cached_spn` and `public_spn` are never the non-NULL empty
string: every assignment in the code is guarded by a non-empty check. -/
def OkStrings (s : SimInfoState) : Prop :=
  s.sim_spn ≠ some "" ∧ s.cached_spn ≠ some "" ∧ s.public_spn ≠ some ""

/-- The inductive invariant: `OkStrings` plus the SPN precedence equation. -/
def SpnInv (s : SimInfoState) : Prop :=
  OkStrings s ∧ s.public_spn = spec_public_spn s

lemma spnInv_update_imsi_cache (s : SimInfoState) (h : SpnInv s) :
    SpnInv (sim_info_update_imsi_cache s) := by
  simp only [sim_info_update_imsi_cache]
  split_ifs <;> simpa [SpnInv, OkStrings, spec_public_spn] using h

lemma spnInv_update_iccid_map (s : SimInfoState) (h : SpnInv s) :
    SpnInv (sim_info_update_iccid_map s) := by
  simp only [sim_info_update_iccid_map]
  split_ifs <;> simpa [SpnInv, OkStrings, spec_public_spn] using h

lemma okStrings_update_imsi_cache (s : SimInfoState) (h : OkStrings s) :
    OkStrings (sim_info_update_imsi_cache s) := by
  simp only [sim_info_update_imsi_cache]
  split_ifs <;> simpa [OkStrings] using h

lemma spn_fields_update_imsi_cache (s : SimInfoState) :
    (sim_info_update_imsi_cache s).sim_spn = s.sim_spn ∧
    (sim_info_update_imsi_cache s).cached_spn = s.cached_spn ∧
    (sim_info_update_imsi_cache s).default_spn = s.default_spn ∧
    (sim_info_update_imsi_cache s).public_spn = s.public_spn := by
  simp only [sim_info_update_imsi_cache]
  split_ifs <;> simp

lemma spnInv_update_public_spn (s : SimInfoState) (h : OkStrings s) :
    SpnInv (sim_info_update_public_spn s) ∧
    (sim_info_update_public_spn s).sim_spn = s.sim_spn ∧
    (sim_info_update_public_spn s).cached_spn = s.cached_spn ∧
    (sim_info_update_public_spn s).default_spn = s.default_spn := by
  obtain ⟨h1, h2, h3⟩ := h
  simp only [sim_info_update_public_spn, sim_info_signal_queue]
  cases hs : s.sim_spn <;> cases hc : s.cached_spn <;>
    split_ifs <;>
      simp_all [SpnInv, OkStrings, spec_public_spn, cstrPresent]

lemma cstrPresent_getD {o : Option String} (h : cstrPresent o) :
    o.getD "" ≠ "" := by
  cases o <;> simpa [cstrPresent] using h

lemma cstrPresent_eq_some {o : Option String} (h : cstrPresent o) :
    o = some (o.getD "") := by
  cases o <;> simp_all [cstrPresent]

lemma cstrPresent_isSome {o : Option String} (h : cstrPresent o) :
    o.isSome := by
  cases o <;> simp_all [cstrPresent]

lemma spnInv_signal_queue (id : SimSignal) (s : SimInfoState)
    (h : SpnInv s) : SpnInv (sim_info_signal_queue id s) := by
  cases id <;>
    simpa [sim_info_signal_queue, SpnInv, OkStrings, spec_public_spn] using h

lemma okStrings_set_cached_spn (spn : String) (s : SimInfoState)
    (hspn : spn ≠ "") (h : OkStrings s) :
    OkStrings (sim_info_set_cached_spn spn s) := by
  simp only [sim_info_set_cached_spn]
  split_ifs with hc
  · refine (spnInv_update_public_spn _ (okStrings_update_imsi_cache _ ?_)).1.1
    exact ⟨h.1, by simp [hspn], h.2.2⟩
  · exact h

lemma spnInv_set_cached_spn (spn : String) (s : SimInfoState)
    (hspn : spn ≠ "") (h : SpnInv s) :
    SpnInv (sim_info_set_cached_spn spn s) := by
  simp only [sim_info_set_cached_spn]
  split_ifs with hc
  · refine (spnInv_update_public_spn _ (okStrings_update_imsi_cache _ ?_)).1
    exact ⟨h.1.1, by simp [hspn], h.1.2.2⟩
  · exact h

lemma spnInv_set_spn (spn : String) (s : SimInfoState)
    (hspn : spn ≠ "") (h : SpnInv s) : SpnInv (sim_info_set_spn spn s) := by
  simp only [sim_info_set_spn]
  split_ifs with hc
  · refine (spnInv_update_public_spn _ (okStrings_update_imsi_cache _ ?_)).1
    refine okStrings_set_cached_spn spn _ hspn ?_
    exact ⟨by simp [hspn], h.1.2.1, h.1.2.2⟩
  · exact h

lemma spnInv_update_spn (env : WatchEnv) (s : SimInfoState)
    (h : SpnInv s) : SpnInv (sim_info_update_spn env s) := by
  simp only [sim_info_update_spn]
  split_ifs with hp
  · exact spnInv_set_spn _ _ (cstrPresent_getD hp) h
  · exact h

lemma spnInv_update_default_spn (sim : Option SimData) (s : SimInfoState)
    (h : SpnInv s) : SpnInv (sim_info_update_default_spn sim s) := by
  simp only [sim_info_update_default_spn]
  split_ifs with hb
  · refine (spnInv_update_public_spn _ ?_).1
    exact h.1
  · exact h

lemma spnInv_update_imsi (env : WatchEnv) (s : SimInfoState)
    (h : SpnInv s) : SpnInv (sim_info_update_imsi env s) := by
  simp only [sim_info_update_imsi]
  apply spnInv_update_default_spn
  split_ifs with hg
  · refine spnInv_signal_queue _ _ ?_
    refine spnInv_update_imsi_cache _ (spnInv_update_iccid_map _ ?_)
    exact ⟨h.1, by simpa [spec_public_spn] using h.2⟩
  · exact h

lemma spnInv_network_check (sim : Option SimData) (s : SimInfoState)
    (h : SpnInv s) : SpnInv (sim_info_network_check sim s) := by
  cases sim with
  | none => simpa [sim_info_network_check] using h
  | some sd =>
    simp only [sim_info_network_check]
    split_ifs with h1 h2 h3
    · exact spnInv_set_cached_spn _ _ (cstrPresent_getD h2.2.2.2.2.1) h
    · exact h
    · exact h
    · exact h

lemma spnInv_load_cache_imsi (sim : Option SimData) (s0 : SimInfoState)
    (h : SpnInv s0) : SpnInv (sim_info_load_cache_imsi sim s0) := by
  simp only [sim_info_load_cache_imsi]
  split_ifs with hic hprev
  · split
    · split_ifs with hgo
      · refine spnInv_signal_queue _ _
          (spnInv_update_default_spn _ _ (spnInv_update_iccid_map _ ?_))
        exact ⟨h.1, by simpa [spec_public_spn] using h.2⟩
      · exact h
    · exact h
  · split
    · split_ifs with hgo
      · refine spnInv_signal_queue _ _
          (spnInv_update_default_spn _ _ (spnInv_update_iccid_map _ ?_))
        exact ⟨h.1, by simpa [spec_public_spn] using h.2⟩
      · exact h
    · exact h
  · exact h

lemma spnInv_load_cache_spn (s : SimInfoState) (h : SpnInv s) :
    SpnInv (sim_info_load_cache_spn s) := by
  simp only [sim_info_load_cache_spn]
  split_ifs with him hprev
  · split
    · split_ifs with hgo
      · refine (spnInv_update_public_spn _ (okStrings_update_imsi_cache _ ?_)).1
        exact ⟨h.1.1, by simp [hgo.1], h.1.2.2⟩
      · exact h
    · exact h
  · split
    · split_ifs with hgo
      · refine (spnInv_update_public_spn _ (okStrings_update_imsi_cache _ ?_)).1
        exact ⟨h.1.1, by simp [hgo.1], h.1.2.2⟩
      · exact h
    · exact h
  · exact h

lemma spnInv_load_cache (sim : Option SimData) (s0 : SimInfoState)
    (h : SpnInv s0) : SpnInv (sim_info_load_cache sim s0) :=
  spnInv_load_cache_spn _ (spnInv_load_cache_imsi sim s0 h)

lemma spnInv_set_iccid (sim : Option SimData) (iccid : Option String)
    (s : SimInfoState) (h : SpnInv s) :
    SpnInv (sim_info_set_iccid sim iccid s) := by
  cases iccid with
  | some v =>
    simp only [sim_info_set_iccid]
    split_ifs with hne
    · refine spnInv_load_cache _ _ (spnInv_signal_queue _ _ ?_)
      exact ⟨h.1, by simpa [spec_public_spn] using h.2⟩
    · exact h
  | none =>
    simp only [sim_info_set_iccid]
    split_ifs with hne him
    · refine (spnInv_update_public_spn _ ?_).1
      refine ⟨by simp [sim_info_signal_queue], by simp [sim_info_signal_queue], ?_⟩
      simpa [sim_info_signal_queue] using h.1.2.2
    · refine (spnInv_update_public_spn _ ?_).1
      refine ⟨by simp [sim_info_signal_queue], by simp [sim_info_signal_queue], ?_⟩
      simpa [sim_info_signal_queue] using h.1.2.2
    · exact h

lemma spnInv_set_netreg (sim : Option SimData) (nr : Option NetregData)
    (s : SimInfoState) (h : SpnInv s) :
    SpnInv (sim_info_set_netreg sim nr s) := by
  cases nr with
  | some d =>
    simp only [sim_info_set_netreg]
    split_ifs with hne
    · refine spnInv_network_check _ _ ?_
      exact ⟨h.1, by simpa [spec_public_spn] using h.2⟩
    · exact h
  | none =>
    simp only [sim_info_set_netreg]
    split_ifs with hne h2
    · exact ⟨h.1, by simpa [spec_public_spn] using h.2⟩
    · exact h
    · exact h

lemma spnInv_emit_queued (s : SimInfoState) (h : SpnInv s) :
    SpnInv (sim_info_emit_queued_signals s).1 := by
  simp only [sim_info_emit_queued_signals, sim_info_signal_emit]
  split_ifs <;> simpa [SpnInv, OkStrings, spec_public_spn] using h

lemma spnInv_handle_event (env : WatchEnv) (ev : WatchEvent)
    (s : SimInfoState) (h : SpnInv s) :
    SpnInv (sim_info_handle_event env ev s).1 := by
  cases ev with
  | iccidChanged =>
    exact spnInv_emit_queued _ (spnInv_set_iccid _ _ _ h)
  | imsiChanged =>
    exact spnInv_emit_queued _ (spnInv_update_imsi _ _ h)
  | spnChanged =>
    exact spnInv_emit_queued _ (spnInv_update_spn _ _ h)
  | netregChanged =>
    exact spnInv_emit_queued _ (spnInv_set_netreg _ _ _ h)
  | netregStatus =>
    simp only [sim_info_handle_event]
    apply spnInv_emit_queued
    cases hs : s.netreg with
    | none => simpa [hs] using h
    | some d0 =>
      cases he : env.netreg with
      | none => simpa [hs, he] using h
      | some d =>
        simp only [hs, he]
        refine spnInv_network_check _ _ ?_
        exact ⟨h.1, by simpa [spec_public_spn] using h.2⟩

lemma spnInv_initial (m c : List (String × String)) :
    SpnInv (sim_info_initial m c) := by
  simp [SpnInv, OkStrings, spec_public_spn, sim_info_initial, cstrPresent]

lemma spnInv_new (env : WatchEnv) (m c : List (String × String)) :
    SpnInv (sim_info_new env m c) := by
  simp only [sim_info_new]
  have h1 := spnInv_set_iccid env.sim env.iccid _ (spnInv_initial m c)
  have h2 := spnInv_set_netreg env.sim env.netreg _ h1
  have h3 := spnInv_update_imsi env _ h2
  have h4 := spnInv_update_spn env _ h3
  have h5 := spnInv_network_check env.sim _ h4
  exact ⟨h5.1, by simpa [spec_public_spn] using h5.2⟩

lemma spnInv_reachable (s : SimInfoState) (h : Reachable s) : SpnInv s := by
  induction h with
  | new env m c => exact spnInv_new env m c
  | step env ev s hs ih => exact spnInv_handle_event env ev s ih

/-! ### Frame lemmas used to execute the functions symbolically -/

@[simp] lemma signal_queue_iccid (s : SimInfoState) :
    sim_info_signal_queue SimSignal.iccid s = { s with queued_iccid := true } :=
  rfl

@[simp] lemma signal_queue_imsi (s : SimInfoState) :
    sim_info_signal_queue SimSignal.imsi s = { s with queued_imsi := true } :=
  rfl

@[simp] lemma signal_queue_spn (s : SimInfoState) :
    sim_info_signal_queue SimSignal.spn s = { s with queued_spn := true } :=
  rfl

@[simp] lemma upub_netreg (s : SimInfoState) :
    (sim_info_update_public_spn s).netreg = s.netreg := by
  simp only [sim_info_update_public_spn, sim_info_signal_queue]
  split_ifs <;> rfl

@[simp] lemma upub_iccid (s : SimInfoState) :
    (sim_info_update_public_spn s).iccid = s.iccid := by
  simp only [sim_info_update_public_spn, sim_info_signal_queue]
  split_ifs <;> rfl

@[simp] lemma upub_imsi (s : SimInfoState) :
    (sim_info_update_public_spn s).imsi = s.imsi := by
  simp only [sim_info_update_public_spn, sim_info_signal_queue]
  split_ifs <;> rfl

@[simp] lemma upub_cached_spn (s : SimInfoState) :
    (sim_info_update_public_spn s).cached_spn = s.cached_spn := by
  simp only [sim_info_update_public_spn, sim_info_signal_queue]
  split_ifs <;> rfl

@[simp] lemma upub_sim_spn (s : SimInfoState) :
    (sim_info_update_public_spn s).sim_spn = s.sim_spn := by
  simp only [sim_info_update_public_spn, sim_info_signal_queue]
  split_ifs <;> rfl

@[simp] lemma upub_default_spn (s : SimInfoState) :
    (sim_info_update_public_spn s).default_spn = s.default_spn := by
  simp only [sim_info_update_public_spn, sim_info_signal_queue]
  split_ifs <;> rfl

@[simp] lemma upub_update_imsi_cache (s : SimInfoState) :
    (sim_info_update_public_spn s).update_imsi_cache = s.update_imsi_cache := by
  simp only [sim_info_update_public_spn, sim_info_signal_queue]
  split_ifs <;> rfl

@[simp] lemma upub_update_iccid_map (s : SimInfoState) :
    (sim_info_update_public_spn s).update_iccid_map = s.update_iccid_map := by
  simp only [sim_info_update_public_spn, sim_info_signal_queue]
  split_ifs <;> rfl

@[simp] lemma upub_queued_iccid (s : SimInfoState) :
    (sim_info_update_public_spn s).queued_iccid = s.queued_iccid := by
  simp only [sim_info_update_public_spn, sim_info_signal_queue]
  split_ifs <;> rfl

@[simp] lemma upub_queued_imsi (s : SimInfoState) :
    (sim_info_update_public_spn s).queued_imsi = s.queued_imsi := by
  simp only [sim_info_update_public_spn, sim_info_signal_queue]
  split_ifs <;> rfl

@[simp] lemma upub_iccidMap (s : SimInfoState) :
    (sim_info_update_public_spn s).iccidMap = s.iccidMap := by
  simp only [sim_info_update_public_spn, sim_info_signal_queue]
  split_ifs <;> rfl

@[simp] lemma upub_spnCache (s : SimInfoState) :
    (sim_info_update_public_spn s).spnCache = s.spnCache := by
  simp only [sim_info_update_public_spn, sim_info_signal_queue]
  split_ifs <;> rfl

@[simp] lemma upub_writes (s : SimInfoState) :
    (sim_info_update_public_spn s).writes = s.writes := by
  simp only [sim_info_update_public_spn, sim_info_signal_queue]
  split_ifs <;> rfl

@[simp] lemma udefault_netreg (sim : Option SimData) (s : SimInfoState) :
    (sim_info_update_default_spn sim s).netreg = s.netreg := by
  simp only [sim_info_update_default_spn]
  split_ifs <;> simp

@[simp] lemma udefault_iccid (sim : Option SimData) (s : SimInfoState) :
    (sim_info_update_default_spn sim s).iccid = s.iccid := by
  simp only [sim_info_update_default_spn]
  split_ifs <;> simp

@[simp] lemma udefault_imsi (sim : Option SimData) (s : SimInfoState) :
    (sim_info_update_default_spn sim s).imsi = s.imsi := by
  simp only [sim_info_update_default_spn]
  split_ifs <;> simp

@[simp] lemma udefault_cached_spn (sim : Option SimData) (s : SimInfoState) :
    (sim_info_update_default_spn sim s).cached_spn = s.cached_spn := by
  simp only [sim_info_update_default_spn]
  split_ifs <;> simp

@[simp] lemma udefault_sim_spn (sim : Option SimData) (s : SimInfoState) :
    (sim_info_update_default_spn sim s).sim_spn = s.sim_spn := by
  simp only [sim_info_update_default_spn]
  split_ifs <;> simp

@[simp] lemma udefault_update_imsi_cache (sim : Option SimData)
    (s : SimInfoState) :
    (sim_info_update_default_spn sim s).update_imsi_cache =
      s.update_imsi_cache := by
  simp only [sim_info_update_default_spn]
  split_ifs <;> simp

@[simp] lemma udefault_update_iccid_map (sim : Option SimData)
    (s : SimInfoState) :
    (sim_info_update_default_spn sim s).update_iccid_map =
      s.update_iccid_map := by
  simp only [sim_info_update_default_spn]
  split_ifs <;> simp

@[simp] lemma udefault_queued_iccid (sim : Option SimData)
    (s : SimInfoState) :
    (sim_info_update_default_spn sim s).queued_iccid = s.queued_iccid := by
  simp only [sim_info_update_default_spn]
  split_ifs <;> simp

@[simp] lemma udefault_queued_imsi (sim : Option SimData)
    (s : SimInfoState) :
    (sim_info_update_default_spn sim s).queued_imsi = s.queued_imsi := by
  simp only [sim_info_update_default_spn]
  split_ifs <;> simp

@[simp] lemma udefault_iccidMap (sim : Option SimData) (s : SimInfoState) :
    (sim_info_update_default_spn sim s).iccidMap = s.iccidMap := by
  simp only [sim_info_update_default_spn]
  split_ifs <;> simp

@[simp] lemma udefault_spnCache (sim : Option SimData) (s : SimInfoState) :
    (sim_info_update_default_spn sim s).spnCache = s.spnCache := by
  simp only [sim_info_update_default_spn]
  split_ifs <;> simp

@[simp] lemma udefault_writes (sim : Option SimData) (s : SimInfoState) :
    (sim_info_update_default_spn sim s).writes = s.writes := by
  simp only [sim_info_update_default_spn]
  split_ifs <;> simp

/-- After `sim_info_update_default_spn` the buffer always holds the derived
value, whether or not it changed. -/
lemma udefault_default_spn (sim : Option SimData) (s : SimInfoState) :
    (sim_info_update_default_spn sim s).default_spn =
      sim_info_default_spn_value sim := by
  simp only [sim_info_update_default_spn]
  split_ifs with hb
  · simp
  · simpa using (not_not.mp hb).symm

/-- The ICCID map flush is a no-op when its dirty flag is clear. -/
lemma umap_noop (s : SimInfoState) (h : s.update_iccid_map = false) :
    sim_info_update_iccid_map s = s := by
  simp [sim_info_update_iccid_map, h]

/-- When the stored SPN already equals `cached_spn`, the cache flush only
clears the dirty flag (whatever its value was). -/
lemma uic_resolved (t : SimInfoState)
    (him : cstrPresent t.imsi) (hcs : cstrPresent t.cached_spn)
    (heq : kvGet t.spnCache (t.imsi.getD "") = some (t.cached_spn.getD "")) :
    sim_info_update_imsi_cache t = { t with update_imsi_cache := false } := by
  simp only [sim_info_update_imsi_cache]
  split_ifs with hg hne
  · exact absurd heq hne
  · rfl
  · have hf : t.update_imsi_cache = false := by
      cases hb : t.update_imsi_cache with
      | false => rfl
      | true => exact absurd ⟨hb, him, hcs⟩ hg
    cases t
    simp_all

/-- Recomputing the public SPN with a present `cached_spn` and no empty-string
`sim_spn` yields the precedence value. -/
lemma upub_of_cached (t : SimInfoState) (v : String)
    (hc : t.cached_spn = some v) (hv : v ≠ "") (hs : t.sim_spn ≠ some "") :
    (sim_info_update_public_spn t).public_spn =
      some (match t.sim_spn with | some w => w | none => v) := by
  cases hss : t.sim_spn with
  | none =>
    simp only [sim_info_update_public_spn, sim_info_signal_queue, hss, hc]
    split_ifs with h1
    · rfl
    · exact not_not.mp h1
  | some w =>
    have hw : w ≠ "" := fun hw0 => hs (hw0 ▸ hss)
    simp only [sim_info_update_public_spn, sim_info_signal_queue, hss]
    split_ifs with h1
    · rfl
    · exact not_not.mp h1

/-- The flush emits exactly the queued kinds, in the fixed order ICCID, IMSI,
SPN, and returns with every bit cleared. -/
lemma emit_queued_spec (s : SimInfoState) :
    (sim_info_emit_queued_signals s).2 =
      (if s.queued_iccid then [SimSignal.iccid] else []) ++
      (if s.queued_imsi then [SimSignal.imsi] else []) ++
      (if s.queued_spn then [SimSignal.spn] else []) ∧
    (sim_info_emit_queued_signals s).1 =
      { s with queued_iccid := false, queued_imsi := false,
               queued_spn := false } := by
  obtain ⟨f1, f2, f3, f4, f5, f6, f7, f8, f9, q1, q2, q3, m1, m2, w⟩ := s
  simp only [sim_info_emit_queued_signals, sim_info_signal_emit]
  cases q1 <;> cases q2 <;> cases q3 <;> simp

/-- `sim_info_set_cached_spn` always leaves `cached_spn` equal to its
argument and does not touch `sim_spn`. -/
lemma scs_cached (v : String) (s : SimInfoState) :
    (sim_info_set_cached_spn v s).cached_spn = some v ∧
    (sim_info_set_cached_spn v s).sim_spn = s.sim_spn := by
  simp only [sim_info_set_cached_spn]
  split_ifs with hc
  · constructor
    · rw [upub_cached_spn, (spn_fields_update_imsi_cache _).2.1]
    · rw [upub_sim_spn, (spn_fields_update_imsi_cache _).1]
  · exact ⟨not_not.mp hc, rfl⟩

/-! ### Claim theorems -/

/-- C1: for every reachable tracker state (after construction or after any
top-level upstream event completes), `public_spn` equals the first present
(non-empty) value among `sim_spn`, `cached_spn`, `default_spn`, and is absent
when none is present.  In reachable states `sim_spn` and `cached_spn` are
never a non-NULL empty string, so presence and non-emptiness coincide. -/
theorem claim_C1_public_spn_precedence (s : SimInfoState)
    (h : Reachable s) : s.public_spn = spec_public_spn s :=
  (spnInv_reachable s h).2

/-- Witness for C1: the precedence equation evaluated at the concrete
reachable state of scenario B. -/
theorem claim_C1_witness : state_b.public_spn = spec_public_spn state_b :=
  claim_C1_public_spn_precedence state_b
    (Reachable.new watch_env_b map_b cache_b)

/-- C4: each persistence flush runs only when its dirty flag is set and both
key and value are non-empty; it reads the stored value back, skips the write
and just clears the flag when the stored value already equals the in-memory
one, and writes (appending to the write log) only when they differ.  These
two functions are the only points in the module that write to either store,
so no stored entry is ever rewritten with the value it already holds. -/
theorem claim_C4_write_minimization (s : SimInfoState) :
    (¬(s.update_imsi_cache ∧ cstrPresent s.imsi ∧ cstrPresent s.cached_spn) →
        sim_info_update_imsi_cache s = s) ∧
    ((s.update_imsi_cache ∧ cstrPresent s.imsi ∧ cstrPresent s.cached_spn) →
      kvGet s.spnCache (s.imsi.getD "") = some (s.cached_spn.getD "") →
      sim_info_update_imsi_cache s = { s with update_imsi_cache := false }) ∧
    ((s.update_imsi_cache ∧ cstrPresent s.imsi ∧ cstrPresent s.cached_spn) →
      kvGet s.spnCache (s.imsi.getD "") ≠ some (s.cached_spn.getD "") →
      sim_info_update_imsi_cache s =
        { s with
            spnCache := kvSet s.spnCache (s.imsi.getD "")
              (s.cached_spn.getD ""),
            writes := s.writes ++
              [WriteRec.spnCache (s.imsi.getD "") (s.cached_spn.getD "")],
            update_imsi_cache := false }) ∧
    (¬(s.update_iccid_map ∧ cstrPresent s.iccid ∧ cstrPresent s.imsi) →
        sim_info_update_iccid_map s = s) ∧
    ((s.update_iccid_map ∧ cstrPresent s.iccid ∧ cstrPresent s.imsi) →
      kvGet s.iccidMap (s.iccid.getD "") = some (s.imsi.getD "") →
      sim_info_update_iccid_map s = { s with update_iccid_map := false }) ∧
    ((s.update_iccid_map ∧ cstrPresent s.iccid ∧ cstrPresent s.imsi) →
      kvGet s.iccidMap (s.iccid.getD "") ≠ some (s.imsi.getD "") →
      sim_info_update_iccid_map s =
        { s with
            iccidMap := kvSet s.iccidMap (s.iccid.getD "") (s.imsi.getD ""),
            writes := s.writes ++
              [WriteRec.iccidMap (s.iccid.getD "") (s.imsi.getD "")],
            update_iccid_map := false }) := by
  refine ⟨?_, ?_, ?_, ?_, ?_, ?_⟩
  · intro hn
    simp [sim_info_update_imsi_cache, hn]
  · intro hg heq
    simp only [sim_info_update_imsi_cache, if_pos hg]
    rw [if_neg (not_not_intro heq)]
  · intro hg hne
    simp only [sim_info_update_imsi_cache, if_pos hg]
    rw [if_pos hne]
  · intro hn
    simp [sim_info_update_iccid_map, hn]
  · intro hg heq
    simp only [sim_info_update_iccid_map, if_pos hg]
    rw [if_neg (not_not_intro heq)]
  · intro hg hne
    simp only [sim_info_update_iccid_map, if_pos hg]
    rw [if_pos hne]

/-- Witness for C4: at a state with the cache dirty and a stale stored SPN,
the flush performs exactly one write of the differing value. -/
theorem claim_C4_witness :
    (state_c4.update_imsi_cache ∧ cstrPresent state_c4.imsi ∧
      cstrPresent state_c4.cached_spn) ∧
    kvGet state_c4.spnCache (state_c4.imsi.getD "") ≠
      some (state_c4.cached_spn.getD "") ∧
    sim_info_update_imsi_cache state_c4 =
      { state_c4 with
          spnCache := kvSet state_c4.spnCache (state_c4.imsi.getD "")
            (state_c4.cached_spn.getD ""),
          writes := state_c4.writes ++
            [WriteRec.spnCache (state_c4.imsi.getD "")
              (state_c4.cached_spn.getD "")],
          update_imsi_cache := false } :=
  ⟨by decide, by decide,
    (claim_C4_write_minimization state_c4).2.2.1 (by decide) (by decide)⟩

/-- C5: flushing emits each queued signal kind exactly once, in the fixed
order ICCID, IMSI, SPN, clearing every bit (the emit step clears the bit of
the kind being emitted before any further kind is considered); queueing the
same kind repeatedly is idempotent, so any number of queue operations within
one event still yields exactly one emission of that kind at the flush. -/
theorem claim_C5_signal_coalescing (s : SimInfoState) (k : SimSignal) :
    (sim_info_emit_queued_signals s).2 =
      (if s.queued_iccid then [SimSignal.iccid] else []) ++
      (if s.queued_imsi then [SimSignal.imsi] else []) ++
      (if s.queued_spn then [SimSignal.spn] else []) ∧
    (sim_info_emit_queued_signals s).1.queued_iccid = false ∧
    (sim_info_emit_queued_signals s).1.queued_imsi = false ∧
    (sim_info_emit_queued_signals s).1.queued_spn = false ∧
    sim_info_signal_queue k (sim_info_signal_queue k s) =
      sim_info_signal_queue k s ∧
    (sim_info_emit_queued_signals (sim_info_signal_queue k s)).2.count k
      = 1 ∧
    (sim_info_emit_queued_signals s).2.count k ≤ 1 := by
  obtain ⟨f1, f2, f3, f4, f5, f6, f7, f8, f9, q1, q2, q3, m1, m2, w⟩ := s
  cases q1 <;> cases q2 <;> cases q3 <;> cases k <;>
    simp [sim_info_emit_queued_signals, sim_info_signal_emit,
      sim_info_signal_queue, List.count_cons, List.count_nil]

/-- C6: the home-network inference adopts the operator name into
`cached_spn` exactly when all its conditions hold (SIM present and ready,
registration REGISTERED or ROAMING, SIM MCC/MNC present and equal to the
network MCC/MNC, operator name present, no `sim_spn` set); otherwise
`cached_spn` is untouched, and `sim_spn` is never modified. -/
theorem claim_C6_home_network_inference (sim : Option SimData)
    (s : SimInfoState) :
    (sim_info_network_check sim s).cached_spn =
      (if sim_info_home_network_fires sim s
       then some ((ofono_netreg_get_name s.netreg).getD "")
       else s.cached_spn) ∧
    (sim_info_network_check sim s).sim_spn = s.sim_spn := by
  cases sim with
  | none => simp [sim_info_network_check, sim_info_home_network_fires]
  | some sd =>
    by_cases hf : sim_info_home_network_fires (some sd) s
    · have hf' := hf
      obtain ⟨f1, f2, f3, f4, f5, f6, f7, f8, f9, f10⟩ := hf
      simp only [sim_info_network_check]
      rw [if_pos hf', if_pos ⟨f1, f2⟩, if_pos ⟨f3, f4, f5, f6, f7, f8, f9⟩,
        if_pos f10]
      exact scs_cached _ _
    · simp only [sim_info_network_check]
      rw [if_neg hf]
      split_ifs with h1 h2 h3
      · exact absurd
          (show sim_info_home_network_fires (some sd) s from
            ⟨h1.1, h1.2, h2.1, h2.2.1, h2.2.2.1, h2.2.2.2.1, h2.2.2.2.2.1,
             h2.2.2.2.2.2.1, h2.2.2.2.2.2.2, h3⟩) hf
      · exact ⟨rfl, rfl⟩
      · exact ⟨rfl, rfl⟩
      · exact ⟨rfl, rfl⟩

/-- C8: calling `sim_info_set_iccid`, `sim_info_set_spn` or
`sim_info_set_cached_spn` with the value already held is a complete no-op:
the entire state (fields, queued signals, dirty flags, stores and write log)
is returned unchanged. -/
theorem claim_C8_idempotence (s : SimInfoState) :
    (∀ (sim : Option SimData) (iccid : Option String),
      s.iccid = iccid → sim_info_set_iccid sim iccid s = s) ∧
    (∀ spn : String, s.sim_spn = some spn → sim_info_set_spn spn s = s) ∧
    (∀ spn : String, s.cached_spn = some spn →
      sim_info_set_cached_spn spn s = s) := by
  refine ⟨?_, ?_, ?_⟩
  · intro sim iccid hic
    simp [sim_info_set_iccid, hic]
  · intro spn hs
    simp [sim_info_set_spn, hs]
  · intro spn hc
    simp [sim_info_set_cached_spn, hc]

/-- Witness for C8: all three setters evaluated as no-ops at a concrete
state holding ICCID "I", SIM SPN "A" and cached SPN "B". -/
theorem claim_C8_witness :
    state_w.iccid = some "I" ∧
    sim_info_set_iccid none (some "I") state_w = state_w ∧
    state_w.sim_spn = some "A" ∧
    sim_info_set_spn "A" state_w = state_w ∧
    state_w.cached_spn = some "B" ∧
    sim_info_set_cached_spn "B" state_w = state_w :=
  ⟨rfl, (claim_C8_idempotence state_w).1 none (some "I") rfl, rfl,
   (claim_C8_idempotence state_w).2.1 "A" rfl, rfl,
   (claim_C8_idempotence state_w).2.2 "B" rfl⟩

/-- C9: an IMSI update event with a NULL or empty upstream IMSI leaves the
tracked IMSI unchanged, and every IMSI update event re-derives `default_spn`
from the current SIM readings afterwards, whether or not the IMSI changed. -/
theorem claim_C9_empty_imsi_ignored (env : WatchEnv) (s : SimInfoState) :
    ((env.imsi = none ∨ env.imsi = some "") →
      (sim_info_update_imsi env s).imsi = s.imsi) ∧
    (sim_info_update_imsi env s).default_spn =
      sim_info_default_spn_value env.sim := by
  constructor
  · intro he
    have hng : ¬(cstrPresent env.imsi ∧ s.imsi ≠ env.imsi) := by
      rcases he with h | h <;> simp [h, cstrPresent]
    simp only [sim_info_update_imsi]
    rw [if_neg hng, udefault_imsi]
  · simp only [sim_info_update_imsi]
    split_ifs with hg
    · exact udefault_default_spn _ _
    · exact udefault_default_spn _ _

/-- Witness for C9: a NULL upstream IMSI leaves the tracked IMSI "001" in
place. -/
theorem claim_C9_witness :
    (watch_env_nil.imsi = none ∨ watch_env_nil.imsi = some "") ∧
    (sim_info_update_imsi watch_env_nil state_w).imsi = state_w.imsi :=
  ⟨Or.inl rfl,
   (claim_C9_empty_imsi_ignored watch_env_nil state_w).1 (Or.inl rfl)⟩

/-- C10: construction clears the queued-signal set before returning and never
flushes it, so no notification is emitted during construction and a flush
right after construction emits nothing: the first observable notification
must come from a later upstream event. -/
theorem claim_C10_construction_silent (env : WatchEnv)
    (m c : List (String × String)) :
    (sim_info_new env m c).queued_iccid = false ∧
    (sim_info_new env m c).queued_imsi = false ∧
    (sim_info_new env m c).queued_spn = false ∧
    (sim_info_emit_queued_signals (sim_info_new env m c)).2 = [] :=
  ⟨rfl, rfl, rfl, rfl⟩

/-! ### Lemmas for the cache-hydration claims -/

@[simp] lemma umap_netreg (s : SimInfoState) :
    (sim_info_update_iccid_map s).netreg = s.netreg := by
  simp only [sim_info_update_iccid_map]; split_ifs <;> rfl

@[simp] lemma umap_iccid (s : SimInfoState) :
    (sim_info_update_iccid_map s).iccid = s.iccid := by
  simp only [sim_info_update_iccid_map]; split_ifs <;> rfl

@[simp] lemma umap_imsi (s : SimInfoState) :
    (sim_info_update_iccid_map s).imsi = s.imsi := by
  simp only [sim_info_update_iccid_map]; split_ifs <;> rfl

@[simp] lemma umap_cached_spn (s : SimInfoState) :
    (sim_info_update_iccid_map s).cached_spn = s.cached_spn := by
  simp only [sim_info_update_iccid_map]; split_ifs <;> rfl

@[simp] lemma umap_sim_spn (s : SimInfoState) :
    (sim_info_update_iccid_map s).sim_spn = s.sim_spn := by
  simp only [sim_info_update_iccid_map]; split_ifs <;> rfl

@[simp] lemma umap_public_spn (s : SimInfoState) :
    (sim_info_update_iccid_map s).public_spn = s.public_spn := by
  simp only [sim_info_update_iccid_map]; split_ifs <;> rfl

@[simp] lemma umap_default_spn (s : SimInfoState) :
    (sim_info_update_iccid_map s).default_spn = s.default_spn := by
  simp only [sim_info_update_iccid_map]; split_ifs <;> rfl

@[simp] lemma umap_update_imsi_cache (s : SimInfoState) :
    (sim_info_update_iccid_map s).update_imsi_cache = s.update_imsi_cache := by
  simp only [sim_info_update_iccid_map]; split_ifs <;> rfl

@[simp] lemma umap_queued_iccid (s : SimInfoState) :
    (sim_info_update_iccid_map s).queued_iccid = s.queued_iccid := by
  simp only [sim_info_update_iccid_map]; split_ifs <;> rfl

@[simp] lemma umap_queued_imsi (s : SimInfoState) :
    (sim_info_update_iccid_map s).queued_imsi = s.queued_imsi := by
  simp only [sim_info_update_iccid_map]; split_ifs <;> rfl

@[simp] lemma umap_queued_spn (s : SimInfoState) :
    (sim_info_update_iccid_map s).queued_spn = s.queued_spn := by
  simp only [sim_info_update_iccid_map]; split_ifs <;> rfl

@[simp] lemma umap_spnCache (s : SimInfoState) :
    (sim_info_update_iccid_map s).spnCache = s.spnCache := by
  simp only [sim_info_update_iccid_map]; split_ifs <;> rfl
@[simp] lemma uic_netreg (s : SimInfoState) :
    (sim_info_update_imsi_cache s).netreg = s.netreg := by
  simp only [sim_info_update_imsi_cache]; split_ifs <;> rfl

@[simp] lemma uic_iccid (s : SimInfoState) :
    (sim_info_update_imsi_cache s).iccid = s.iccid := by
  simp only [sim_info_update_imsi_cache]; split_ifs <;> rfl

@[simp] lemma uic_imsi (s : SimInfoState) :
    (sim_info_update_imsi_cache s).imsi = s.imsi := by
  simp only [sim_info_update_imsi_cache]; split_ifs <;> rfl

@[simp] lemma uic_cached_spn (s : SimInfoState) :
    (sim_info_update_imsi_cache s).cached_spn = s.cached_spn := by
  simp only [sim_info_update_imsi_cache]; split_ifs <;> rfl

@[simp] lemma uic_sim_spn (s : SimInfoState) :
    (sim_info_update_imsi_cache s).sim_spn = s.sim_spn := by
  simp only [sim_info_update_imsi_cache]; split_ifs <;> rfl

@[simp] lemma uic_public_spn (s : SimInfoState) :
    (sim_info_update_imsi_cache s).public_spn = s.public_spn := by
  simp only [sim_info_update_imsi_cache]; split_ifs <;> rfl

@[simp] lemma uic_default_spn (s : SimInfoState) :
    (sim_info_update_imsi_cache s).default_spn = s.default_spn := by
  simp only [sim_info_update_imsi_cache]; split_ifs <;> rfl

@[simp] lemma uic_update_iccid_map (s : SimInfoState) :
    (sim_info_update_imsi_cache s).update_iccid_map = s.update_iccid_map := by
  simp only [sim_info_update_imsi_cache]; split_ifs <;> rfl

@[simp] lemma uic_queued_iccid (s : SimInfoState) :
    (sim_info_update_imsi_cache s).queued_iccid = s.queued_iccid := by
  simp only [sim_info_update_imsi_cache]; split_ifs <;> rfl

@[simp] lemma uic_queued_imsi (s : SimInfoState) :
    (sim_info_update_imsi_cache s).queued_imsi = s.queued_imsi := by
  simp only [sim_info_update_imsi_cache]; split_ifs <;> rfl

@[simp] lemma uic_queued_spn (s : SimInfoState) :
    (sim_info_update_imsi_cache s).queued_spn = s.queued_spn := by
  simp only [sim_info_update_imsi_cache]; split_ifs <;> rfl

@[simp] lemma uic_iccidMap (s : SimInfoState) :
    (sim_info_update_imsi_cache s).iccidMap = s.iccidMap := by
  simp only [sim_info_update_imsi_cache]; split_ifs <;> rfl

/-- The cache flush leaves the dirty flag clear whenever key and value are
present, whatever the flag was before the call. -/
lemma uic_flag_false (t : SimInfoState)
    (him : cstrPresent t.imsi) (hcs : cstrPresent t.cached_spn) :
    (sim_info_update_imsi_cache t).update_imsi_cache = false := by
  simp only [sim_info_update_imsi_cache]
  split_ifs with hg hne
  · rfl
  · rfl
  · cases hb : t.update_imsi_cache with
    | false => rfl
    | true => exact absurd ⟨hb, him, hcs⟩ hg

/-- The cache flush commits no write when the stored value already equals
the in-memory one. -/
lemma uic_writes_eq (t : SimInfoState)
    (heq : kvGet t.spnCache (t.imsi.getD "") = some (t.cached_spn.getD "")) :
    (sim_info_update_imsi_cache t).writes = t.writes := by
  simp only [sim_info_update_imsi_cache]
  split_ifs with hg hne
  · exact absurd heq hne
  · rfl
  · rfl

/-- The map flush commits no write when its dirty flag is clear. -/
lemma umap_writes_of_flag (t : SimInfoState)
    (h : t.update_iccid_map = false) :
    (sim_info_update_iccid_map t).writes = t.writes := by
  simp [sim_info_update_iccid_map, h]

/-- The SPN block of the cache load, on a state whose IMSI is present and
whose store holds a non-empty SPN differing from `cached_spn`: the stored
SPN is adopted, the public SPN recomputed, the dirty flag consumed, and no
store write committed (the store already holds the adopted value). -/
lemma load_cache_spn_adopt (p : SimInfoState) (im spn : String)
    (e1 : p.imsi = some im) (him : im ≠ "")
    (hkv : kvGet p.spnCache im = some spn) (hspn2 : spn ≠ "")
    (hcd : p.cached_spn ≠ some spn) (hsim : p.sim_spn ≠ some "") :
    (sim_info_load_cache_spn p).cached_spn = some spn ∧
    (sim_info_load_cache_spn p).imsi = some im ∧
    (sim_info_load_cache_spn p).public_spn =
      some (match p.sim_spn with | some v => v | none => spn) ∧
    (sim_info_load_cache_spn p).update_imsi_cache = false ∧
    (sim_info_load_cache_spn p).writes = p.writes ∧
    (sim_info_load_cache_spn p).queued_imsi = p.queued_imsi ∧
    (sim_info_load_cache_spn p).sim_spn = p.sim_spn := by
  simp only [sim_info_load_cache_spn]
  rw [if_pos (show cstrPresent p.imsi from by rw [e1]; exact him)]
  have hkv2 : kvGet p.spnCache (p.imsi.getD "") = some spn := by
    rw [e1]; exact hkv
  simp only [hkv2]
  rw [if_pos ⟨hspn2, hcd⟩]
  by_cases hold2 : cstrPresent p.cached_spn
  · rw [if_pos hold2]
    refine ⟨by simp, by simp [e1], ?_, ?_, ?_, by simp, by simp⟩
    · exact (upub_of_cached _ spn (by simp) hspn2 (by simpa using hsim)).trans
        (by simp)
    · rw [upub_update_imsi_cache]
      exact uic_flag_false _ (by simpa [cstrPresent, e1] using him)
        (by simpa [cstrPresent] using hspn2)
    · rw [upub_writes, uic_writes_eq _ (by simpa [e1] using hkv)]
  · rw [if_neg hold2]
    refine ⟨by simp, by simp [e1], ?_, ?_, ?_, by simp, by simp⟩
    · exact (upub_of_cached _ spn (by simp) hspn2 (by simpa using hsim)).trans
        (by simp)
    · rw [upub_update_imsi_cache]
      exact uic_flag_false _ (by simpa [cstrPresent, e1] using him)
        (by simpa [cstrPresent] using hspn2)
    · rw [upub_writes, uic_writes_eq _ (by simpa [e1] using hkv)]

/-- C2 [code-bug evidence]: at the concrete reachable failing input (tracked
ICCID "I1" and non-empty tracked IMSI "001"; the ICCID map stores IMSI "002"
for the new ICCID "I2"), the ICCID-changed event adopts the stored IMSI and
queues IMSI-changed as the claim says, but the code sets the PER-IMSI SPN
CACHE dirty flag (`update_imsi_cache`) and leaves the ICCID map dirty flag
(`update_iccid_map`) clear — the line under the source comment "Need to
update ICCID -> IMSI map" assigns the wrong flag. -/
theorem claim_C2_dirty_flag_divergence :
    Reachable state_c2 ∧
    state_c2.iccid = some "I1" ∧
    state_c2.imsi = some "001" ∧
    state_c2.update_imsi_cache = false ∧
    state_c2.update_iccid_map = false ∧
    kvGet state_c2.iccidMap "I2" = some "002" ∧
    (sim_info_handle_event env_c2_swap WatchEvent.iccidChanged
        state_c2).1.imsi = some "002" ∧
    (sim_info_handle_event env_c2_swap WatchEvent.iccidChanged state_c2).2 =
      [SimSignal.iccid, SimSignal.imsi] ∧
    (sim_info_handle_event env_c2_swap WatchEvent.iccidChanged
        state_c2).1.update_imsi_cache = true ∧
    (sim_info_handle_event env_c2_swap WatchEvent.iccidChanged
        state_c2).1.update_iccid_map = false :=
  ⟨Reachable.new env_c2_init map_c2 [], by decide, by decide, by decide,
   by decide, by decide, by decide, by decide, by decide, by decide⟩

/-- C3 [counterexample]: a fresh IMSI report does NOT look the per-IMSI SPN
cache up.  At a reachable state with no tracked IMSI and a stored non-empty
SPN "StoredSPN" under IMSI "002", the IMSI event adopts "002" but leaves
`cached_spn` absent — the claim says the stored SPN would be adopted. -/
theorem claim_C3_counterexample :
    Reachable state_c3 ∧
    state_c3.imsi = none ∧
    state_c3.cached_spn = none ∧
    kvGet state_c3.spnCache "002" = some "StoredSPN" ∧
    (sim_info_handle_event env_c3_imsi WatchEvent.imsiChanged
        state_c3).1.imsi = some "002" ∧
    (sim_info_handle_event env_c3_imsi WatchEvent.imsiChanged
        state_c3).1.cached_spn = none :=
  ⟨Reachable.new env_c3_init [] cache_c3, by decide, by decide, by decide,
   by decide, by decide⟩

/-- C3 [amended]: only the cache-hydration path (`sim_info_load_cache`, run
when the ICCID becomes present) looks the per-IMSI SPN cache up.  When the
map hydrates a new IMSI and the cache stores a non-empty SPN for it that
differs from `cached_spn`, the stored SPN is adopted as `cached_spn`, the
public SPN is recomputed (SPN precedence over the adopted value), the dirty
flag ends clear and no store write is committed — the store already holds the
adopted value, so the marked rewrite is skipped by write-minimization. -/
theorem claim_C3_spn_hydration (sim : Option SimData) (s : SimInfoState)
    (ic im spn : String)
    (hic : s.iccid = some ic) (hic2 : ic ≠ "")
    (hmap : kvGet s.iccidMap ic = some im) (him : im ≠ "")
    (hdiff : s.imsi ≠ some im)
    (hspn : kvGet s.spnCache im = some spn) (hspn2 : spn ≠ "")
    (hcdiff : s.cached_spn ≠ some spn)
    (hsim : s.sim_spn ≠ some "")
    (hflag : s.update_iccid_map = false) :
    (sim_info_load_cache sim s).imsi = some im ∧
    (sim_info_load_cache sim s).cached_spn = some spn ∧
    (sim_info_load_cache sim s).public_spn =
      some (match s.sim_spn with | some v => v | none => spn) ∧
    (sim_info_load_cache sim s).update_imsi_cache = false ∧
    (sim_info_load_cache sim s).writes = s.writes ∧
    (sim_info_load_cache sim s).queued_imsi = true := by
  have hpres : cstrPresent s.iccid := by
    rw [hic]; exact hic2
  have h1 : sim_info_load_cache_imsi sim s =
      sim_info_signal_queue SimSignal.imsi (sim_info_update_default_spn sim
        (sim_info_update_iccid_map
          { s with
              update_imsi_cache :=
                (if cstrPresent s.imsi then true else s.update_imsi_cache),
              imsi := some im })) := by
    simp only [sim_info_load_cache_imsi]
    rw [if_pos hpres]
    have hkv0 : kvGet s.iccidMap (s.iccid.getD "") = some im := by
      rw [hic]; exact hmap
    simp only [hkv0]
    rw [if_pos ⟨him, hdiff⟩]
    by_cases hold : cstrPresent s.imsi
    · rw [if_pos hold, if_pos hold]
    · rw [if_neg hold, if_neg hold]
  have hq := load_cache_spn_adopt
    (sim_info_signal_queue SimSignal.imsi (sim_info_update_default_spn sim
      (sim_info_update_iccid_map
        { s with
            update_imsi_cache :=
              (if cstrPresent s.imsi then true else s.update_imsi_cache),
            imsi := some im })))
    im spn (by simp) him (by simpa using hspn) hspn2 (by simpa using hcdiff)
    (by simpa using hsim)
  simp only [sim_info_load_cache, h1]
  refine ⟨hq.2.1, hq.1, hq.2.2.1.trans (by simp), hq.2.2.2.1, ?_, ?_⟩
  · refine hq.2.2.2.2.1.trans ?_
    simp only [signal_queue_imsi]
    simp
    exact umap_writes_of_flag _ hflag
  · refine hq.2.2.2.2.2.1.trans ?_
    simp

/-- Witness for the amended C3 at a concrete state: ICCID "I9" hydrates IMSI
"009", whose stored SPN "NineSPN" is adopted and published. -/
theorem claim_C3_witness :
    state_c3w.iccid = some "I9" ∧
    kvGet state_c3w.iccidMap "I9" = some "009" ∧
    kvGet state_c3w.spnCache "009" = some "NineSPN" ∧
    ((sim_info_load_cache none state_c3w).imsi = some "009" ∧
     (sim_info_load_cache none state_c3w).cached_spn = some "NineSPN" ∧
     (sim_info_load_cache none state_c3w).public_spn =
       some (match state_c3w.sim_spn with | some v => v | none => "NineSPN") ∧
     (sim_info_load_cache none state_c3w).update_imsi_cache = false ∧
     (sim_info_load_cache none state_c3w).writes = state_c3w.writes ∧
     (sim_info_load_cache none state_c3w).queued_imsi = true) :=
  ⟨rfl, by decide, by decide,
   claim_C3_spn_hydration none state_c3w "I9" "009" "NineSPN" rfl (by decide)
     (by decide) (by decide) (by decide) (by decide) (by decide) (by decide)
     (by decide) rfl⟩

/-- C7 [counterexample]: the claim quantifies over every prior state, but a
reachable state can hold a non-empty IMSI while the ICCID is already absent
(the Watch reported an IMSI with no ICCID known).  There, an ICCID event
reporting absent is a no-op: the IMSI stays "001" and nothing fires, against
the claimed `imsi = None` outcome. -/
theorem claim_C7_counterexample :
    Reachable state_c7 ∧
    state_c7.iccid = none ∧
    state_c7.imsi = some "001" ∧
    (sim_info_handle_event watch_env_nil WatchEvent.iccidChanged
        state_c7).1.imsi = some "001" ∧
    (sim_info_handle_event watch_env_nil WatchEvent.iccidChanged
        state_c7).2 = [] :=
  ⟨Reachable.step env_c7_imsi WatchEvent.imsiChanged _
      (Reachable.new watch_env_nil [] []),
   by decide, by decide, by decide, by decide⟩

/-- C7 [amended]: for every reachable prior state whose ICCID is PRESENT, an
upstream event reporting an absent ICCID clears the IMSI, `sim_spn`,
`cached_spn` and `default_spn` and leaves `public_spn` absent; and when that
prior state additionally had a non-empty IMSI and a non-empty public SPN,
exactly ICCID-changed, IMSI-changed and SPN-changed fire, once each, in that
fixed order during the flush. -/
theorem claim_C7_iccid_clear (env : WatchEnv) (s : SimInfoState)
    (hr : Reachable s) (hic : s.iccid ≠ none) (he : env.iccid = none) :
    (sim_info_handle_event env WatchEvent.iccidChanged s).1.imsi = none ∧
    (sim_info_handle_event env WatchEvent.iccidChanged s).1.sim_spn = none ∧
    (sim_info_handle_event env WatchEvent.iccidChanged s).1.cached_spn
      = none ∧
    (sim_info_handle_event env WatchEvent.iccidChanged s).1.default_spn
      = "" ∧
    (sim_info_handle_event env WatchEvent.iccidChanged s).1.public_spn
      = none ∧
    (cstrPresent s.imsi → cstrPresent s.public_spn →
      (sim_info_handle_event env WatchEvent.iccidChanged s).2 =
        [SimSignal.iccid, SimSignal.imsi, SimSignal.spn]) := by
  have hpub_ne : s.public_spn ≠ some "" := (spnInv_reachable s hr).1.2.2
  cases himv : s.imsi with
  | some iv =>
    have hq1 :
        ({ s with
            iccid := none, queued_iccid := true }
          : SimInfoState).imsi.isSome = true := by
      show s.imsi.isSome = true
      rw [himv]
      rfl
    have hq2 :
        ({ s with
            iccid := none, queued_iccid := true, imsi := none,
            queued_imsi := true, sim_spn := none, cached_spn := none,
            default_spn := "" } : SimInfoState).public_spn ≠ some "" :=
      hpub_ne
    have h1 : sim_info_set_iccid env.sim env.iccid s =
        sim_info_update_public_spn
          { s with
              iccid := none, queued_iccid := true, imsi := none,
              queued_imsi := true, sim_spn := none, cached_spn := none,
              default_spn := "" } := by
      rw [he]
      simp only [sim_info_set_iccid, signal_queue_iccid, signal_queue_imsi]
      rw [if_pos hic]
      rw [if_pos hq1]
    have h2 : sim_info_update_public_spn
        { s with
            iccid := none, queued_iccid := true, imsi := none,
            queued_imsi := true, sim_spn := none, cached_spn := none,
            default_spn := "" } =
        { s with
            iccid := none, queued_iccid := true, imsi := none,
            queued_imsi := true, sim_spn := none, cached_spn := none,
            default_spn := "", public_spn := none, queued_spn := true } := by
      simp only [sim_info_update_public_spn, signal_queue_spn]
      rw [if_pos hq2]
      simp
    simp only [sim_info_handle_event, h1, h2]
    obtain ⟨hl, hs⟩ := emit_queued_spec
      { s with
          iccid := none, queued_iccid := true, imsi := none,
          queued_imsi := true, sim_spn := none, cached_spn := none,
          default_spn := "", public_spn := none, queued_spn := true }
    rw [hl, hs]
    simp
  | none =>
    have hq1 :
        ¬(({ s with
            iccid := none, queued_iccid := true }
          : SimInfoState).imsi.isSome = true) := by
      show ¬(s.imsi.isSome = true)
      rw [himv]
      simp
    have hq2 :
        ({ s with
            iccid := none, queued_iccid := true, sim_spn := none,
            cached_spn := none, default_spn := "" }
          : SimInfoState).public_spn ≠ some "" := hpub_ne
    have h1 : sim_info_set_iccid env.sim env.iccid s =
        sim_info_update_public_spn
          { s with
              iccid := none, queued_iccid := true, sim_spn := none,
              cached_spn := none, default_spn := "" } := by
      rw [he]
      simp only [sim_info_set_iccid, signal_queue_iccid]
      rw [if_pos hic]
      rw [if_neg hq1]
    have h2 : sim_info_update_public_spn
        { s with
            iccid := none, queued_iccid := true, sim_spn := none,
            cached_spn := none, default_spn := "" } =
        { s with
            iccid := none, queued_iccid := true, sim_spn := none,
            cached_spn := none, default_spn := "", public_spn := none,
            queued_spn := true } := by
      simp only [sim_info_update_public_spn, signal_queue_spn]
      rw [if_pos hq2]
      simp
    simp only [sim_info_handle_event, h1, h2]
    obtain ⟨hl, hs⟩ := emit_queued_spec
      { s with
          iccid := none, queued_iccid := true, sim_spn := none,
          cached_spn := none, default_spn := "", public_spn := none,
          queued_spn := true }
    rw [hl, hs]
    refine ⟨himv, rfl, rfl, rfl, rfl, ?_⟩
    intro him2 hp2
    simp [cstrPresent, himv] at him2

/-- Witness for the amended C7: scenario D run from the hydrated scenario-B
state (ICCID "8901", IMSI "001", public SPN "MyCarrier"): the SIM removal
clears everything and fires the three signals in order. -/
theorem claim_C7_witness :
    state_b.iccid ≠ none ∧ cstrPresent state_b.imsi ∧
    cstrPresent state_b.public_spn ∧ watch_env_nil.iccid = none ∧
    ((sim_info_handle_event watch_env_nil WatchEvent.iccidChanged
        state_b).1.imsi = none ∧
     (sim_info_handle_event watch_env_nil WatchEvent.iccidChanged
        state_b).1.sim_spn = none ∧
     (sim_info_handle_event watch_env_nil WatchEvent.iccidChanged
        state_b).1.cached_spn = none ∧
     (sim_info_handle_event watch_env_nil WatchEvent.iccidChanged
        state_b).1.default_spn = "" ∧
     (sim_info_handle_event watch_env_nil WatchEvent.iccidChanged
        state_b).1.public_spn = none ∧
     (sim_info_handle_event watch_env_nil WatchEvent.iccidChanged
        state_b).2 = [SimSignal.iccid, SimSignal.imsi, SimSignal.spn]) :=
  ⟨by decide, by decide, by decide, rfl, by
    have h := claim_C7_iccid_clear watch_env_nil state_b
      (Reachable.new watch_env_b map_b cache_b) (by decide) rfl
    exact ⟨h.1, h.2.1, h.2.2.1, h.2.2.2.1, h.2.2.2.2.1,
      h.2.2.2.2.2 (by decide) (by decide)⟩⟩
